import Mathlib

/-!
Verification of panmanager.py: a shallow embedding of the changeset
parsing, validation and ordered reconciliation engine, with theorems
checking the natural-language specification against the code.
-/

namespace Panmanager

/-! ## Group membership editor (remove_palo_member, panmanager.py lines 901-944) -/

/-- The three group kinds for which placeholder substitution exists. -/
inductive GroupKind
  | addressGroup
  | serviceGroup
  | applicationGroup
deriving DecidableEq

/-- AddressObject record as constructed by the script (pandevice fields used by it). -/
structure AddressObject where
  name : String
  value : String
  type : String
  description : String := ""
  tag : Option (List String) := none
deriving DecidableEq

/-- ServiceObject record as constructed by the script. -/
structure ServiceObject where
  name : String
  protocol : String
  source_port : Option String := none
  destination_port : Nat
  description : String := ""
  tag : Option (List String) := none
deriving DecidableEq

/-- The placeholder AddressObject created by remove_palo_member (line 919). -/
def placeholderAddress : AddressObject :=
  { name := "placeholder", value := "169.254.1.1", type := "ip-netmask",
    description := "placeholder object for empty groups" }

/-- The placeholder ServiceObject created by remove_palo_member (line 925). -/
def placeholderService : ServiceObject :=
  { name := "placeholder-service", protocol := "tcp", destination_port := 0,
    description := "placeholder object for empty groups" }

/-- The member name appended to an emptied group of each kind
(remove_palo_member lines 921, 927, 930). -/
def placeholderMember : GroupKind → String
  | .addressGroup => "placeholder"
  | .serviceGroup => "placeholder-service"
  | .applicationGroup => "ping"

/-- remove_palo_member, member-collection part (lines 909-930): python
list.remove removes the first occurrence; if the collection becomes empty a
kind-specific placeholder member is appended before group.apply() writes the
group back. -/
def removePaloMember (kind : GroupKind) (members : List String) (member : String) :
    List String :=
  let remaining := members.erase member
  if remaining = [] then remaining ++ [placeholderMember kind] else remaining

/-! ## Delete cascade (update_objects, panmanager.py lines 202-255) -/

/-- A DeleteObject change operation (panmanager.py lines 163-166). -/
structure DeleteObject where
  name : String
  type : String
deriving DecidableEq

/-- Device-facing effects issued by the delete branch of update_objects. -/
inductive DeleteEffect
  | removeFromGroup (kind : GroupKind) (group member : String)
  | deleteObject (type name : String)
  | unsupported (type name : String)
deriving DecidableEq

/-- update_objects, DeleteObject branch (lines 203-255): deleting an address,
service or application first attempts a removefromgroup against every known
group of the matching kind, then deletes the object; group kinds, rules and
routes delete directly.  The pre/post rule branches iterate the rulebase
children of the tree, modelled here by their name lists. -/
def updateObjectsDelete (o : DeleteObject)
    (availableAddressGroupNames availableServiceGroupNames
     availableApplicationGroupNames : List String)
    (preRulebases postRulebases : List String) : List DeleteEffect :=
  if o.type = "address" then
    (availableAddressGroupNames.map (fun g => .removeFromGroup .addressGroup g o.name))
      ++ [.deleteObject "address" o.name]
  else if o.type = "address-group" then
    [.deleteObject "address-group" o.name]
  else if o.type = "service" then
    (availableServiceGroupNames.map (fun g => .removeFromGroup .serviceGroup g o.name))
      ++ [.deleteObject "service" o.name]
  else if o.type = "service-group" then
    [.deleteObject "service-group" o.name]
  else if o.type = "tag" then
    [.deleteObject "tag" o.name]
  else if o.type = "application" then
    (availableApplicationGroupNames.map (fun g => .removeFromGroup .applicationGroup g o.name))
      ++ [.deleteObject "application" o.name]
  else if o.type = "application-group" then
    [.deleteObject "application-group" o.name]
  else if o.type = "application-filter" then
    [.deleteObject "application-filter" o.name]
  else if o.type = "security-rule" then
    [.deleteObject "security-rule" o.name]
  else if o.type = "nat-rule" then
    [.deleteObject "nat-rule" o.name]
  else if o.type = "pre-security-rule" then
    preRulebases.map (fun _ => .deleteObject "pre-security-rule" o.name)
  else if o.type = "pre-nat-rule" then
    preRulebases.map (fun _ => .deleteObject "pre-nat-rule" o.name)
  else if o.type = "post-security-rule" then
    postRulebases.map (fun _ => .deleteObject "post-security-rule" o.name)
  else if o.type = "post-nat-rule" then
    postRulebases.map (fun _ => .deleteObject "post-nat-rule" o.name)
  else if o.type = "route" then
    [.deleteObject "route" o.name]
  else
    [.unsupported o.type o.name]

/-! ## Reference resolver for the create pass (main, panmanager.py lines 4564-4603) -/

/-- Object kinds processed in the fixed create order of the per-scope pass. -/
inductive ObjKind
  | tag
  | address
  | addressGroup
  | service
  | serviceGroup
  | application
  | applicationGroup
  | securityRule
deriving DecidableEq

/-- One available-name set per object kind (plus zones), as passed positionally
to update_objects. -/
structure NameSets where
  tags : Finset String
  addresses : Finset String
  addressGroups : Finset String
  services : Finset String
  serviceGroups : Finset String
  applications : Finset String
  applicationGroups : Finset String
  rules : Finset String
  zones : Finset String

/-- Select the name set belonging to a kind. -/
def NameSets.get (s : NameSets) : ObjKind → Finset String
  | .tag => s.tags
  | .address => s.addresses
  | .addressGroup => s.addressGroups
  | .service => s.services
  | .serviceGroup => s.serviceGroups
  | .application => s.applications
  | .applicationGroup => s.applicationGroups
  | .securityRule => s.rules

/-- The null_set placeholder passed for unused slots (main line 4317). -/
def nullSets : NameSets :=
  ⟨∅, ∅, ∅, ∅, ∅, ∅, ∅, ∅, ∅⟩

/-- The available-name sets main passes to update_objects for each kind of
object during a create pass over a scope (lines 4565-4583 for the seven object
kinds, line 4593 for rules): live is the union of live, predefined and
higher-scope names, batch the dbedit name sets for this scope admitted by the
parser.  Transcribed argument by argument from the calls in main. -/
def createPassAvail (live batch : NameSets) : ObjKind → NameSets
  | .tag =>
    { nullSets with tags := live.tags }
  | .address =>
    { nullSets with tags := live.tags ∪ batch.tags,
                    addresses := live.addresses }
  | .addressGroup =>
    { nullSets with tags := live.tags ∪ batch.tags,
                    addresses := live.addresses ∪ batch.addresses,
                    addressGroups := live.addressGroups }
  | .service =>
    { nullSets with tags := live.tags ∪ batch.tags,
                    services := live.services }
  | .serviceGroup =>
    { nullSets with tags := live.tags ∪ batch.tags,
                    services := live.services ∪ batch.services,
                    serviceGroups := live.serviceGroups }
  | .application =>
    { nullSets with applications := live.applications }
  | .applicationGroup =>
    { nullSets with applications := live.applications ∪ batch.applications,
                    applicationGroups := live.applicationGroups }
  | .securityRule =>
    { nullSets with tags := live.tags ∪ batch.tags,
                    addresses := live.addresses ∪ batch.addresses,
                    addressGroups := live.addressGroups ∪ batch.addressGroups,
                    services := live.services ∪ batch.services,
                    serviceGroups := live.serviceGroups ∪ batch.serviceGroups,
                    applications := live.applications ∪ batch.applications,
                    applicationGroups := live.applicationGroups ∪ batch.applicationGroups,
                    rules := live.rules,
                    zones := live.zones }

/-- The dependency kinds whose batch-admitted names are merged into the
available sets of a later kind in the create pass. -/
def createDeps : ObjKind → List ObjKind
  | .tag => []
  | .address => [.tag]
  | .addressGroup => [.tag, .address]
  | .service => [.tag]
  | .serviceGroup => [.tag, .service]
  | .application => []
  | .applicationGroup => [.application]
  | .securityRule => [.tag, .address, .addressGroup, .service, .serviceGroup,
                      .application, .applicationGroup]

/-! ## Dependency validator for creates (panmanager.py lines 410-467, 566-589) -/

/-- Outcome of a create_palo_* call: created means create_palo_object was
invoked (a device call); the other outcomes are logged skips with no device
call. -/
inductive CreateOutcome
  | created
  | alreadyExists
  | invalidRef (field value : String)
deriving DecidableEq

/-- Python for-loop with break on the first failing element and else-clause
on completion: returns the first element rejected by good, if any. -/
def checkRefs (good : String → Bool) : List String → Option String
  | [] => none
  | x :: xs => if good x then checkRefs good xs else some x

/-- Python truthiness of an optional list field (None and the empty list are
both falsy). -/
def truthy : Option (List String) → Bool
  | none => false
  | some l => !l.isEmpty

/-- create_palo_address (lines 566-589): reject when the name is already
available; otherwise, when a tag list was requested, every tag must be an
available tag name, breaking on the first missing one. -/
def createPaloAddress (noChecks : Bool) (o : AddressObject)
    (addresses tags : Finset String) : CreateOutcome :=
  if noChecks then .created
  else if o.name ∈ addresses then .alreadyExists
  else if truthy o.tag then
    match checkRefs (fun t => decide (t ∈ tags)) (o.tag.getD []) with
    | some t => .invalidRef "tag" t
    | none => .created
  else .created

/-- SecurityRule fields checked by create_palo_rule. -/
structure SecurityRule where
  name : String
  fromzone : List String
  tozone : List String
  source : List String
  destination : List String
  application : List String
  service : List String
  tag : Option (List String)
deriving DecidableEq

/-- create_palo_rule (lines 410-467): the sentinels any (zones, addresses,
applications, services) and application-default (services) are added first;
then the rule is rejected when its name already exists, and otherwise each
referenced field is checked in order fromzone, source, tozone, destination,
application, service, tag, breaking on the first unresolved reference. -/
def createPaloRule (noChecks : Bool) (o : SecurityRule)
    (rules zones addresses addressGroups services serviceGroups
     applications applicationGroups tags : Finset String) : CreateOutcome :=
  let zones := insert "any" zones
  let addresses := insert "any" addresses
  let applications := insert "any" applications
  let services := insert "application-default" (insert "any" services)
  if noChecks then .created
  else if o.name ∈ rules then .alreadyExists
  else match checkRefs (fun z => decide (z ∈ zones)) o.fromzone with
  | some z => .invalidRef "fromzone" z
  | none => match checkRefs (fun s => decide (s ∈ addresses ∨ s ∈ addressGroups)) o.source with
    | some s => .invalidRef "source" s
    | none => match checkRefs (fun z => decide (z ∈ zones)) o.tozone with
      | some z => .invalidRef "tozone" z
      | none => match checkRefs (fun d => decide (d ∈ addresses ∨ d ∈ addressGroups)) o.destination with
        | some d => .invalidRef "destination" d
        | none => match checkRefs (fun a => decide (a ∈ applications ∨ a ∈ applicationGroups)) o.application with
          | some a => .invalidRef "application" a
          | none => match checkRefs (fun s => decide (s ∈ services ∨ s ∈ serviceGroups)) o.service with
            | some s => .invalidRef "service" s
            | none => match o.tag with
              | some ts =>
                match checkRefs (fun t => decide (t ∈ tags)) ts with
                | some t => .invalidRef "tag" t
                | none => .created
              | none => .created

/-- good accepts every element of l (the else-clause of the for loop). -/
def AllGood (good : String → Bool) (l : List String) : Prop :=
  ∀ x ∈ l, good x = true

/-- v is the first element of l rejected by good. -/
def FirstBad (good : String → Bool) (l : List String) (v : String) : Prop :=
  good v = false ∧ ∃ l₁ l₂, l = l₁ ++ v :: l₂ ∧ AllGood good l₁

/-- The reference fields of a rule all resolve (with the sentinels added). -/
def RuleRefsValid (o : SecurityRule)
    (zones addresses addressGroups services serviceGroups
     applications applicationGroups tags : Finset String) : Prop :=
  AllGood (fun z => decide (z ∈ insert "any" zones)) o.fromzone
    ∧ AllGood (fun s => decide (s ∈ insert "any" addresses ∨ s ∈ addressGroups)) o.source
    ∧ AllGood (fun z => decide (z ∈ insert "any" zones)) o.tozone
    ∧ AllGood (fun d => decide (d ∈ insert "any" addresses ∨ d ∈ addressGroups)) o.destination
    ∧ AllGood (fun a => decide (a ∈ insert "any" applications ∨ a ∈ applicationGroups)) o.application
    ∧ AllGood (fun s => decide (s ∈ insert "application-default" (insert "any" services) ∨ s ∈ serviceGroups)) o.service
    ∧ AllGood (fun t => decide (t ∈ tags)) (o.tag.getD [])

/-- The invalid reference reported for a rule is genuine and is the first
one in the fixed checking order: all fields checked before it are fully
valid and it is the first rejected element of its own field. -/
def RuleFirstFailure (o : SecurityRule)
    (zones addresses addressGroups services serviceGroups
     applications applicationGroups tags : Finset String)
    (field value : String) : Prop :=
  let goodZone := fun z => decide (z ∈ insert "any" zones)
  let goodAddr := fun s => decide (s ∈ insert "any" addresses ∨ s ∈ addressGroups)
  let goodApp := fun a => decide (a ∈ insert "any" applications ∨ a ∈ applicationGroups)
  let goodSvc := fun s => decide (s ∈ insert "application-default" (insert "any" services) ∨ s ∈ serviceGroups)
  let goodTag := fun t => decide (t ∈ tags)
  (field = "fromzone" ∧ FirstBad goodZone o.fromzone value)
  ∨ (field = "source" ∧ AllGood goodZone o.fromzone
      ∧ FirstBad goodAddr o.source value)
  ∨ (field = "tozone" ∧ AllGood goodZone o.fromzone ∧ AllGood goodAddr o.source
      ∧ FirstBad goodZone o.tozone value)
  ∨ (field = "destination" ∧ AllGood goodZone o.fromzone ∧ AllGood goodAddr o.source
      ∧ AllGood goodZone o.tozone
      ∧ FirstBad goodAddr o.destination value)
  ∨ (field = "application" ∧ AllGood goodZone o.fromzone ∧ AllGood goodAddr o.source
      ∧ AllGood goodZone o.tozone ∧ AllGood goodAddr o.destination
      ∧ FirstBad goodApp o.application value)
  ∨ (field = "service" ∧ AllGood goodZone o.fromzone ∧ AllGood goodAddr o.source
      ∧ AllGood goodZone o.tozone ∧ AllGood goodAddr o.destination
      ∧ AllGood goodApp o.application
      ∧ FirstBad goodSvc o.service value)
  ∨ (field = "tag" ∧ AllGood goodZone o.fromzone ∧ AllGood goodAddr o.source
      ∧ AllGood goodZone o.tozone ∧ AllGood goodAddr o.destination
      ∧ AllGood goodApp o.application ∧ AllGood goodSvc o.service
      ∧ FirstBad goodTag (o.tag.getD []) value)

/-! ## Lock and commit coordination (panmanager.py lines 4028-4041, 4114-4208) -/

/-- CLI flags consumed by tidy_up and its callees. -/
structure Args where
  filename : Bool
  test : Bool
  commit : Bool
  no_locks : Bool
deriving DecidableEq

/-- Observable end-of-run effects of tidy_up and its callees. -/
inductive TidyEffect
  | failuresWarn
  | failuresNotReleasingWarn
  | revertAttempt
  | revertSucceeded
  | revertFailed
  | commitAttempt
  | commitSucceeded
  | commitFailedWarn
  | notReleasingWarn
  | releaseLocksEffect
deriving DecidableEq

/-- commit_palo (lines 4028-4041): attempts the commit when args.commit is
set and reports success; an exception from tree.commit is logged and reported
as failure.  commitOk stands for the outcome of the device call. -/
def commitPalo (args : Args) (commitOk : Bool) : Bool × List TidyEffect :=
  if args.commit then
    if commitOk then (true, [.commitAttempt, .commitSucceeded])
    else (false, [.commitAttempt, .commitFailedWarn])
  else (true, [])

/-- wipe_candidate_config (lines 4114-4124): revert to the running
configuration and, on success, release the locks; an exception from the
revert is logged.  revertOk stands for the outcome of the device call. -/
def wipeCandidateConfig (revertOk : Bool) : List TidyEffect :=
  if revertOk then [.revertAttempt, .revertSucceeded, .releaseLocksEffect]
  else [.revertAttempt, .revertFailed]

/-- tidy_up (lines 4189-4208), transcribed branch by branch. -/
def tidyUp (args : Args) (failuresNonempty commitOk revertOk : Bool) :
    List TidyEffect :=
  if args.filename && !args.test then
    if failuresNonempty then
      if args.commit then
        .failuresWarn :: wipeCandidateConfig revertOk
      else
        if !args.no_locks then [.failuresNotReleasingWarn] else [.failuresWarn]
    else
      if args.commit then
        let r := commitPalo args commitOk
        if r.1 then
          r.2 ++ (if !args.no_locks then [.releaseLocksEffect] else [])
        else
          r.2 ++ (if !args.no_locks then [.notReleasingWarn] else [])
      else []
  else []

/-- release_locks (lines 4148-4187): each lock type is retried over the
attempt numbers of python range(1, max_attempts) with max_attempts = 10;
exhausting them without success is fatal (sys.exit(1)). -/
def maxAttempts : Nat := 10

/-- The attempt numbers produced by range(1, max_attempts): 1 to 9. -/
def releaseAttemptNumbers : List Nat := List.range' 1 (maxAttempts - 1)

/-- One retry loop of release_locks: stop at the first successful release,
returning whether the lock was released and how many attempts were made. -/
def tryRelease (ok : Nat → Bool) : List Nat → Bool × Nat
  | [] => (false, 0)
  | a :: rest =>
    if ok a then (true, 1)
    else
      let r := tryRelease ok rest
      (r.1, r.2 + 1)

/-- Result of release_locks. -/
structure LockReleaseResult where
  commitReleased : Bool
  configReleased : Bool
  commitAttempts : Nat
  configAttempts : Nat
  fatalExit : Bool
deriving DecidableEq

/-- release_locks (lines 4148-4187): both loops iterate range(1, 10); the
process exits fatally when either lock is still held afterwards. -/
def releaseLocks (commitOk configOk : Nat → Bool) : LockReleaseResult :=
  let c := tryRelease commitOk releaseAttemptNumbers
  let g := tryRelease configOk releaseAttemptNumbers
  { commitReleased := c.1, configReleased := g.1,
    commitAttempts := c.2, configAttempts := g.2,
    fatalExit := !c.1 || !g.1 }

/-! ## Changeset index retrieval (get_dbedit_list, panmanager.py lines 2210-2229) -/

/-- A parsed change operation as held in the changeset index.  Every CSV row
constructs a fresh python object; rowIndex models that object identity. -/
structure DbeditOp where
  rowIndex : Nat
  vendor : String
  location : String
  opAction : String
  type : String
  name : String
deriving DecidableEq

/-- Field-level equality of two operations: same kind and same fields,
ignoring object identity. -/
def DbeditOp.sameFields (a b : DbeditOp) : Bool :=
  a.vendor == b.vendor && a.location == b.location && a.opAction == b.opAction
    && a.type == b.type && a.name == b.name

/-- more_itertools.unique_everseen over the collected operations: membership
in the seen collection uses hashing and equality, which for the operation
classes of the script (DeleteObject, EditObject, ModifyGroup, Dip and the
pandevice objects, none of which define value equality) is python object
identity, modelled by comparing whole operations including rowIndex. -/
def uniqueEverseenGo : List DbeditOp → List DbeditOp → List DbeditOp
  | [], _ => []
  | x :: xs, seen =>
    if seen.contains x then uniqueEverseenGo xs seen
    else x :: uniqueEverseenGo xs (x :: seen)

/-- unique_everseen with an initially empty seen collection. -/
def uniqueEverseen (l : List DbeditOp) : List DbeditOp := uniqueEverseenGo l []

/-- get_dbedit_list (lines 2210-2229): walk the nested index keys matching
vendor, location and action, collect the operations of the requested kind in
insertion order, and pass the list through unique_everseen. -/
def getDbeditList (ops : List DbeditOp)
    (vendor location opAction type : String) : List DbeditOp :=
  uniqueEverseen (ops.filter (fun o =>
    o.vendor == vendor && o.location == location && o.opAction == opAction
      && o.type == type))

/-! ## Row normalizer description suffix (read_dbedit_csv lines 1177-1210) -/

/-- The action and raw description cell of one CSV row. -/
structure DescRow where
  opAction : String
  description : String
deriving DecidableEq

/-- Lines 1201-1205: the per-row update of the auto_description variable.
The variable persists across loop iterations and is never reset for create
rows. -/
def autoDescStep (date auto : String) (r : DescRow) : String :=
  let auto := if r.opAction = "edit" then "EDITED by API: " ++ date else auto
  if r.opAction = "addtogroup" ∨ r.opAction = "removefromgroup" then
    "MODIFIED by API: " ++ date
  else auto

/-- Lines 1207-1210: append the auto description to the description cell. -/
def rowDescription (desc auto : String) : String :=
  if desc ≠ "" then desc ++ " - " ++ auto else auto

/-- The reader loop restricted to its description handling, threading the
auto_description variable through the rows. -/
def processDescAux (date : String) : String → List DescRow → List String
  | _, [] => []
  | auto, r :: rs =>
    let auto := autoDescStep date auto r
    rowDescription r.description auto :: processDescAux date auto rs

/-- Description handling of read_dbedit_csv: auto_description starts as the
CREATED suffix (lines 1177-1178) and is threaded through the row loop. -/
def processDescriptions (date : String) (rows : List DescRow) : List String :=
  processDescAux date ("CREATED by API: " ++ date) rows

/-- A row whose action rewrites the auto description (edit, addtogroup or
removefromgroup). -/
def stickyRow (r : DescRow) : Bool :=
  r.opAction == "edit" || r.opAction == "addtogroup"
    || r.opAction == "removefromgroup"

/-- Characterization of the auto description actually in force after a list
of rows, starting from auto: the suffix of the most recent edit, addtogroup
or removefromgroup row, if any. -/
def stickyAutoFrom (date auto : String) (rows : List DescRow) : String :=
  match (rows.filter stickyRow).getLast? with
  | none => auto
  | some r =>
    if r.opAction == "edit" then "EDITED by API: " ++ date
    else "MODIFIED by API: " ++ date

/-! ## Python string primitives, modelled structurally over character lists
(so they evaluate inside the kernel) -/

/-- python str.split(sep) on a character list, single-character separator. -/
def splitCharList (c : Char) : List Char → List (List Char)
  | [] => [[]]
  | x :: xs =>
    if x = c then [] :: splitCharList c xs
    else
      match splitCharList c xs with
      | [] => [[x]]
      | y :: ys => (x :: y) :: ys

/-- python str.split(sep) for a single-character separator. -/
def splitOnChar (c : Char) (s : String) : List String :=
  (splitCharList c s.data).map String.mk

/-- python str.replace(c, empty string) for a single character. -/
def removeChar (c : Char) (s : List Char) : List Char :=
  s.filter (fun x => x ≠ c)

/-- python str.replace applied to the comma-space pattern of
make_list_from_str. -/
def collapseCommaSpace : List Char → List Char
  | [] => []
  | [a] => [a]
  | a :: b :: rest =>
    if a = ',' ∧ b = ' ' then ',' :: collapseCommaSpace rest
    else a :: collapseCommaSpace (b :: rest)

/-- Decimal digit accumulator of python int(). -/
def digitsToNatAux (acc : Nat) : List Char → Option Nat
  | [] => some acc
  | c :: rest =>
    if c.isDigit then digitsToNatAux (acc * 10 + (c.toNat - 48)) rest
    else none

/-- Digits of a nonempty decimal literal. -/
def digitsToNat : List Char → Option Nat
  | [] => none
  | l => digitsToNatAux 0 l

/-- python int(s) on the decimal literals this format uses: an optional
minus sign followed by digits; anything else raises ValueError (none). -/
def pyIntVal (s : String) : Option Int :=
  match s.data with
  | '-' :: rest => (digitsToNat rest).map (fun n => -(n : Int))
  | l => (digitsToNat l).map (fun n => (n : Int))

/-! ## Field normalization helpers (panmanager.py lines 3969-4026) -/

/-- make_list_from_str (lines 3969-3995): collapse comma-space, strip
brackets and quotes, then split on commas; an empty remainder yields python
None. -/
def makeListFromStr (s : String) : Option (List String) :=
  let cs := collapseCommaSpace s.data
  let cs := removeChar '[' cs
  let cs := removeChar ']' cs
  let cs := removeChar (Char.ofNat 39) cs
  if cs.contains ',' then
    some ((splitCharList ',' cs).map String.mk)
  else if cs = [] then none
  else some [String.mk cs]

/-- check_max_length (lines 4019-4026). -/
def checkMaxLength (n : String) (len : Nat) : Bool :=
  1 ≤ n.length && n.length ≤ len

/-- The numeric value of a dotted-quad IPv4 literal, if valid.  Models the
accepting set of python ipaddress.ip_address for the dotted-quad literals
this changeset format uses (IPv6 and integer forms are out of scope). -/
def ipv4Value (s : String) : Option Nat :=
  match (splitCharList '.' s.data).mapM (fun p =>
      if 1 ≤ p.length && p.all Char.isDigit then digitsToNat p else none) with
  | some [a, b, c, d] =>
    if a ≤ 255 && b ≤ 255 && c ≤ 255 && d ≤ 255 then
      some (((a * 256 + b) * 256 + c) * 256 + d)
    else none
  | _ => none

/-- check_ip (lines 3997-4006): ipaddress.ip_address with the ValueError
caught, as a boolean. -/
def checkIp (s : String) : Bool := (ipv4Value s).isSome

/-- check_cidr (lines 4008-4017): ipaddress.ip_network with the ValueError
caught, as a boolean; a bare address is a /32 network and a set host bit is
rejected (strict networks).  The netmask spelling of the suffix is out of
scope. -/
def checkCidr (s : String) : Bool :=
  match splitCharList '/' s.data with
  | [a] => checkIp (String.mk a)
  | [a, m] =>
    (match ipv4Value (String.mk a),
        (if 1 ≤ m.length && m.all Char.isDigit then digitsToNat m else none) with
     | some v, some n => n ≤ 32 && v % 2 ^ (32 - n) == 0
     | _, _ => false)
  | _ => false

/-! ## NAT rule syntax validation (lines 1692-1695, 1747, 2117-2158) -/

/-- check_dbedit_syntax_palo_nat_rule (lines 2117-2158): a NAT row passes
only with a present, single-element tozone list. -/
def checkDbeditSyntaxPaloNatRule (noChecks : Bool) (name description : String)
    (tozone : Option (List String)) : Bool :=
  if noChecks then true
  else
    if checkMaxLength name 31 then
      if checkMaxLength description 1024 then
        match tozone with
        | some tz => tz.length == 1
        | none => false
      else false
    else false

/-- Normalization of the tozone cell for NAT rows (lines 1692-1695): an empty
cell becomes python None, otherwise make_list_from_str applies. -/
def natRowTozone (cell : String) : Option (List String) :=
  if cell ≠ "" then makeListFromStr cell else none

/-- The admission decision for a NAT row: a NatRule change operation is
constructed and appended only when the syntax validator passes (lines
1747-1786). -/
def natRowProducesOp (noChecks : Bool) (name description tozoneCell : String) :
    Bool :=
  checkDbeditSyntaxPaloNatRule noChecks name description (natRowTozone tozoneCell)

/-! ## Row parsing and error propagation (read_dbedit_csv lines 1181-1823) -/

/-- Result of python code that can raise. -/
abbrev PyResult (α : Type) := Except String α

/-- python int() on a string: ValueError when the text is not an integer
literal. -/
def pyIntE (s : String) : PyResult Int :=
  match pyIntVal s with
  | some v => .ok v
  | none => .error "ValueError"

/-- check_dbedit_syntax_palo_service (lines 1907-1977): int() is applied to
the port fields before their range checks, so non-integer port text raises
ValueError instead of returning False; the trailing name, description,
protocol and tag checks come after the port blocks. -/
def checkDbeditSyntaxPaloService (noChecks : Bool) (name protocol : String)
    (sourcePort destinationPort : Option String)
    (description : String) (tags : Option (List String)) : PyResult Bool := do
  if noChecks then return true
  match sourcePort with
  | some sp =>
    if sp.data.contains (Char.ofNat 45) then
      let a ← pyIntE ((splitOnChar (Char.ofNat 45) sp).getD 0 "")
      if 1 ≤ a ∧ a ≤ 65535 then
        let b ← pyIntE ((splitOnChar (Char.ofNat 45) sp).getD 1 "")
        if 1 ≤ b ∧ b ≤ 65535 then
          if a ≠ b then pure () else return false
        else return false
      else return false
    else
      let v ← pyIntE sp
      if 1 ≤ v ∧ v ≤ 65535 then pure () else return false
  | none => pure ()
  match destinationPort with
  | some dp =>
    if dp.data.contains (Char.ofNat 45) then
      let a ← pyIntE ((splitOnChar (Char.ofNat 45) dp).getD 0 "")
      if 1 ≤ a ∧ a ≤ 65535 then
        let b ← pyIntE ((splitOnChar (Char.ofNat 45) dp).getD 1 "")
        if 1 ≤ b ∧ b ≤ 65535 then
          if a ≠ b then pure () else return false
        else return false
      else return false
    else
      let v ← pyIntE dp
      if 1 ≤ v ∧ v ≤ 65535 then pure () else return false
  | none => return false
  if checkMaxLength name 63 && checkMaxLength description 255
      && (("tcp".data.isPrefixOf protocol.data)
          || ("udp".data.isPrefixOf protocol.data)) then
    match tags with
    | some tagList => return tagList.all (fun t => checkMaxLength t 31)
    | none => return true
  else
    return false

/-- check_dbedit_syntax_palo_address (lines 1828-1862): pure boolean checks,
the IP and CIDR validators catching their own ValueError; a dash in value
demands a two-IP range; the tag check measures the length of the tag list. -/
def checkDbeditSyntaxPaloAddress (noChecks : Bool)
    (name description : String) (tag : Option (List String))
    (subtype value ip cidr : String) : Bool :=
  if noChecks then true
  else
    (if value.data.contains (Char.ofNat 45) then
       checkIp ((splitOnChar (Char.ofNat 45) value).getD 0 "")
         && checkIp ((splitOnChar (Char.ofNat 45) value).getD 1 "")
     else true)
    && checkMaxLength name 63
    && checkMaxLength description 255
    && (match tag with
        | none => true
        | some l => 1 ≤ l.length && l.length ≤ 31)
    && (subtype == "ip-netmask" || subtype == "fqdn" || subtype == "ip-range")
    && (ip == "" || checkIp ip)
    && (cidr == "" || checkCidr cidr)
    && (value == "" || value.data.contains (Char.ofNat 46))

/-- check_dbedit_syntax_palo_tag (lines 2000-2013). -/
def checkDbeditSyntaxPaloTag (noChecks : Bool) (name description : String) :
    Bool :=
  if noChecks then true
  else checkMaxLength name 31 && checkMaxLength description 255

/-- Raw cells of one palo create row, for the modelled kinds. -/
inductive CsvRow
  | addressRow (name subtype value ip cidr description tagCell : String)
  | serviceRow (name protocol sourcePort destinationPort description tagCell : String)
  | tagRow (name description color : String)
deriving DecidableEq

/-- Change operations produced by the modelled rows. -/
inductive ChangeOp
  | addressOp (name value type : String)
  | serviceOp (name protocol : String) (sourcePort : Option String)
      (destinationPort : String)
  | tagOp (name : String)
deriving DecidableEq

/-- Processing of one palo create row of the modelled kinds (lines 1384-1433):
a validator returning False logs a junk-syntax warning and yields no
operation; a ValueError raised inside a validator propagates out of the row. -/
def processRow (noChecks : Bool) : CsvRow → PyResult (Option ChangeOp)
  | .addressRow name subtype value ip cidr description tagCell =>
    let tag := if tagCell ≠ "" then makeListFromStr tagCell else none
    if checkDbeditSyntaxPaloAddress noChecks name description tag subtype value ip cidr then
      if subtype = "ip-netmask" then .ok (some (.addressOp name cidr subtype))
      else if subtype = "fqdn" then .ok (some (.addressOp name value subtype))
      else if subtype = "ip-range" then .ok (some (.addressOp name value subtype))
      else .ok none
    else .ok none
  | .serviceRow name protocol sourcePort destinationPort description tagCell =>
    let tag := if tagCell ≠ "" then makeListFromStr tagCell else none
    let sp := if sourcePort = "" then none else some sourcePort
    match checkDbeditSyntaxPaloService noChecks name protocol sp
        (some destinationPort) description tag with
    | .error e => .error e
    | .ok true => .ok (some (.serviceOp name protocol sp destinationPort))
    | .ok false => .ok none
  | .tagRow name description _ =>
    if checkDbeditSyntaxPaloTag noChecks name description then
      .ok (some (.tagOp name))
    else .ok none

/-- The reader loop together with its surrounding try/except (lines
1181-1823): an exception raised while processing any row is caught outside
the loop, logged, emailed, and the process exits via sys.exit(1), aborting
the whole parse; a skipped row merely continues with the next one. -/
def processRows (noChecks : Bool) : List CsvRow → PyResult (List ChangeOp)
  | [] => .ok []
  | r :: rs =>
    match processRow noChecks r with
    | .error e => .error e
    | .ok none => processRows noChecks rs
    | .ok (some op) =>
      match processRows noChecks rs with
      | .error e => .error e
      | .ok ops => .ok (op :: ops)

/-! ## Theorems -/

/-- checkRefs accepts the whole list exactly when every element is good. -/
theorem checkRefs_eq_none_iff (good : String → Bool) (l : List String) :
    checkRefs good l = none ↔ AllGood good l := by
  induction l with
  | nil => simp [checkRefs, AllGood]
  | cons x xs ih =>
    by_cases hx : good x = true
    · simp [checkRefs, hx, ih, AllGood]
    · simp only [Bool.not_eq_true] at hx
      simp [checkRefs, hx, AllGood]

/-- checkRefs reports the first rejected element. -/
theorem checkRefs_eq_some (good : String → Bool) (l : List String) (v : String)
    (h : checkRefs good l = some v) : FirstBad good l v := by
  induction l with
  | nil => simp [checkRefs] at h
  | cons x xs ih =>
    by_cases hx : good x = true
    · simp only [checkRefs, hx, if_true] at h
      obtain ⟨hv, l₁, l₂, hl, hall⟩ := ih h
      refine ⟨hv, x :: l₁, l₂, by simp [hl], ?_⟩
      intro y hy
      rcases List.mem_cons.1 hy with hy | hy
      · exact hy ▸ hx
      · exact hall y hy
    · simp only [Bool.not_eq_true] at hx
      simp only [checkRefs, hx, Bool.false_eq_true, if_false, Option.some.injEq] at h
      subst h
      exact ⟨hx, [], xs, rfl, by intro y hy; simp at hy⟩

/-- A falsy optional list is empty once defaulted. -/
theorem truthy_false_getD (t : Option (List String)) (h : truthy t = false) :
    t.getD [] = [] := by
  cases t with
  | none => rfl
  | some l =>
    simp only [truthy, Bool.not_eq_false'] at h
    simpa [Option.getD] using List.isEmpty_iff.1 h

/-- createPaloRule (with checks, name fresh) creates exactly when every
reference check loop runs to completion. -/
theorem createPaloRule_created_iff (r : SecurityRule)
    (rules zones addresses addressGroups services serviceGroups
     applications applicationGroups tags : Finset String)
    (hn : r.name ∉ rules) :
    createPaloRule false r rules zones addresses addressGroups services
        serviceGroups applications applicationGroups tags = .created
      ↔ checkRefs (fun z => decide (z ∈ insert "any" zones)) r.fromzone = none
        ∧ checkRefs (fun s => decide (s ∈ insert "any" addresses ∨ s ∈ addressGroups)) r.source = none
        ∧ checkRefs (fun z => decide (z ∈ insert "any" zones)) r.tozone = none
        ∧ checkRefs (fun d => decide (d ∈ insert "any" addresses ∨ d ∈ addressGroups)) r.destination = none
        ∧ checkRefs (fun a => decide (a ∈ insert "any" applications ∨ a ∈ applicationGroups)) r.application = none
        ∧ checkRefs (fun s => decide (s ∈ insert "application-default" (insert "any" services) ∨ s ∈ serviceGroups)) r.service = none
        ∧ checkRefs (fun t => decide (t ∈ tags)) (r.tag.getD []) = none := by
  simp only [createPaloRule]
  rw [if_neg (by simp), if_neg hn]
  cases h1 : checkRefs (fun z => decide (z ∈ insert "any" zones)) r.fromzone with
  | some z => simp [h1]
  | none =>
  cases h2 : checkRefs (fun s => decide (s ∈ insert "any" addresses ∨ s ∈ addressGroups)) r.source with
  | some s => simp [h1, h2]
  | none =>
  cases h3 : checkRefs (fun z => decide (z ∈ insert "any" zones)) r.tozone with
  | some z => simp [h1, h2, h3]
  | none =>
  cases h4 : checkRefs (fun d => decide (d ∈ insert "any" addresses ∨ d ∈ addressGroups)) r.destination with
  | some d => simp [h1, h2, h3, h4]
  | none =>
  cases h5 : checkRefs (fun a => decide (a ∈ insert "any" applications ∨ a ∈ applicationGroups)) r.application with
  | some a => simp [h1, h2, h3, h4, h5]
  | none =>
  cases h6 : checkRefs (fun s => decide (s ∈ insert "application-default" (insert "any" services) ∨ s ∈ serviceGroups)) r.service with
  | some s => simp [h1, h2, h3, h4, h5, h6]
  | none =>
  cases htag : r.tag with
  | none => simp [h1, h2, h3, h4, h5, h6, htag, checkRefs]
  | some ts =>
  cases h7 : checkRefs (fun t => decide (t ∈ tags)) ts with
  | some t => simp [h1, h2, h3, h4, h5, h6, htag, h7]
  | none => simp [h1, h2, h3, h4, h5, h6, htag, h7]

/-- An invalid-reference outcome of createPaloRule names the first unresolved
reference in the fixed checking order. -/
theorem createPaloRule_invalidRef (r : SecurityRule)
    (rules zones addresses addressGroups services serviceGroups
     applications applicationGroups tags : Finset String) (f v : String)
    (h : createPaloRule false r rules zones addresses addressGroups services
        serviceGroups applications applicationGroups tags = .invalidRef f v) :
    r.name ∉ rules
      ∧ RuleFirstFailure r zones addresses addressGroups services serviceGroups
          applications applicationGroups tags f v := by
  by_cases hn : r.name ∈ rules
  · exfalso
    revert h
    simp only [createPaloRule]
    rw [if_neg (by simp), if_pos hn]
    simp
  refine ⟨hn, ?_⟩
  revert h
  simp only [createPaloRule, RuleFirstFailure]
  rw [if_neg (by simp), if_neg hn]
  cases h1 : checkRefs (fun z => decide (z ∈ insert "any" zones)) r.fromzone with
  | some z =>
    intro h
    injection h with hf hv
    exact Or.inl ⟨hf.symm, hv ▸ checkRefs_eq_some _ _ _ h1⟩
  | none =>
  cases h2 : checkRefs (fun s => decide (s ∈ insert "any" addresses ∨ s ∈ addressGroups)) r.source with
  | some s =>
    intro h
    injection h with hf hv
    exact Or.inr (Or.inl ⟨hf.symm, (checkRefs_eq_none_iff _ _).1 h1,
      hv ▸ checkRefs_eq_some _ _ _ h2⟩)
  | none =>
  cases h3 : checkRefs (fun z => decide (z ∈ insert "any" zones)) r.tozone with
  | some z =>
    intro h
    injection h with hf hv
    exact Or.inr (Or.inr (Or.inl ⟨hf.symm, (checkRefs_eq_none_iff _ _).1 h1,
      (checkRefs_eq_none_iff _ _).1 h2, hv ▸ checkRefs_eq_some _ _ _ h3⟩))
  | none =>
  cases h4 : checkRefs (fun d => decide (d ∈ insert "any" addresses ∨ d ∈ addressGroups)) r.destination with
  | some d =>
    intro h
    injection h with hf hv
    exact Or.inr (Or.inr (Or.inr (Or.inl ⟨hf.symm,
      (checkRefs_eq_none_iff _ _).1 h1, (checkRefs_eq_none_iff _ _).1 h2,
      (checkRefs_eq_none_iff _ _).1 h3, hv ▸ checkRefs_eq_some _ _ _ h4⟩)))
  | none =>
  cases h5 : checkRefs (fun a => decide (a ∈ insert "any" applications ∨ a ∈ applicationGroups)) r.application with
  | some a =>
    intro h
    injection h with hf hv
    exact Or.inr (Or.inr (Or.inr (Or.inr (Or.inl ⟨hf.symm,
      (checkRefs_eq_none_iff _ _).1 h1, (checkRefs_eq_none_iff _ _).1 h2,
      (checkRefs_eq_none_iff _ _).1 h3, (checkRefs_eq_none_iff _ _).1 h4,
      hv ▸ checkRefs_eq_some _ _ _ h5⟩))))
  | none =>
  cases h6 : checkRefs (fun s => decide (s ∈ insert "application-default" (insert "any" services) ∨ s ∈ serviceGroups)) r.service with
  | some s =>
    intro h
    injection h with hf hv
    exact Or.inr (Or.inr (Or.inr (Or.inr (Or.inr (Or.inl ⟨hf.symm,
      (checkRefs_eq_none_iff _ _).1 h1, (checkRefs_eq_none_iff _ _).1 h2,
      (checkRefs_eq_none_iff _ _).1 h3, (checkRefs_eq_none_iff _ _).1 h4,
      (checkRefs_eq_none_iff _ _).1 h5, hv ▸ checkRefs_eq_some _ _ _ h6⟩)))))
  | none =>
  cases htag : r.tag with
  | none =>
    intro h
    exact absurd h (by simp)
  | some ts =>
  cases h7 : checkRefs (fun t => decide (t ∈ tags)) ts with
  | some t =>
    intro h
    simp only [h7] at h
    injection h with hf hv
    refine Or.inr (Or.inr (Or.inr (Or.inr (Or.inr (Or.inr ⟨hf.symm,
      (checkRefs_eq_none_iff _ _).1 h1, (checkRefs_eq_none_iff _ _).1 h2,
      (checkRefs_eq_none_iff _ _).1 h3, (checkRefs_eq_none_iff _ _).1 h4,
      (checkRefs_eq_none_iff _ _).1 h5, (checkRefs_eq_none_iff _ _).1 h6, ?_⟩)))))
    exact hv ▸ checkRefs_eq_some _ _ _ h7
  | none =>
    intro h
    exact absurd h (by simp [h7])

/-- Claim C4: for every CreateObject operation with checks enabled, a name
already present in the available set for its kind is rejected as a logged
no-op (no device call, the existing object untouched); otherwise every
referenced field is checked against the appropriate available set, the
operation creating exactly when all references resolve and the rejection
otherwise naming the first unresolved reference in the fixed field order
(shown for address objects, whose referenced field is the tag list, and for
security rules across fromzone, source, tozone, destination, application,
service and tag). -/
theorem C4_dependency_validator
    (o : AddressObject) (addresses tags : Finset String)
    (r : SecurityRule)
    (rules zones raddresses raddressGroups rservices rserviceGroups
     rapplications rapplicationGroups rtags : Finset String) :
    (o.name ∈ addresses →
      createPaloAddress false o addresses tags = .alreadyExists)
    ∧ (o.name ∉ addresses →
        (createPaloAddress false o addresses tags = .created
          ↔ AllGood (fun t => decide (t ∈ tags)) (o.tag.getD [])))
    ∧ (∀ f v, createPaloAddress false o addresses tags = .invalidRef f v →
        o.name ∉ addresses ∧ f = "tag"
          ∧ FirstBad (fun t => decide (t ∈ tags)) (o.tag.getD []) v)
    ∧ (r.name ∈ rules →
        createPaloRule false r rules zones raddresses raddressGroups rservices
          rserviceGroups rapplications rapplicationGroups rtags = .alreadyExists)
    ∧ (r.name ∉ rules →
        (createPaloRule false r rules zones raddresses raddressGroups rservices
            rserviceGroups rapplications rapplicationGroups rtags = .created
          ↔ RuleRefsValid r zones raddresses raddressGroups rservices
              rserviceGroups rapplications rapplicationGroups rtags))
    ∧ (∀ f v,
        createPaloRule false r rules zones raddresses raddressGroups rservices
            rserviceGroups rapplications rapplicationGroups rtags
          = .invalidRef f v →
        r.name ∉ rules
          ∧ RuleFirstFailure r zones raddresses raddressGroups rservices
              rserviceGroups rapplications rapplicationGroups rtags f v) := by
  refine ⟨?_, ?_, ?_, ?_, ?_, ?_⟩
  · intro h
    simp only [createPaloAddress]
    rw [if_neg (by simp), if_pos h]
  · intro hn
    simp only [createPaloAddress]
    rw [if_neg (by simp), if_neg hn, ← checkRefs_eq_none_iff]
    by_cases ht : truthy o.tag = true
    · rw [if_pos ht]
      cases h1 : checkRefs (fun t => decide (t ∈ tags)) (o.tag.getD []) with
      | some t => simp [h1]
      | none => simp [h1]
    · simp only [Bool.not_eq_true] at ht
      rw [if_neg (by simp [ht]), truthy_false_getD o.tag ht]
      simp [checkRefs]
  · intro f v h
    by_cases hm : o.name ∈ addresses
    · exfalso
      revert h
      simp only [createPaloAddress]
      rw [if_neg (by simp), if_pos hm]
      simp
    refine ⟨hm, ?_⟩
    revert h
    simp only [createPaloAddress]
    rw [if_neg (by simp), if_neg hm]
    by_cases ht : truthy o.tag = true
    · rw [if_pos ht]
      cases h1 : checkRefs (fun t => decide (t ∈ tags)) (o.tag.getD []) with
      | some t =>
        intro h
        injection h with hf hv
        exact ⟨hf.symm, hv ▸ checkRefs_eq_some _ _ _ h1⟩
      | none => simp
    · simp only [Bool.not_eq_true] at ht
      rw [if_neg (by simp [ht])]
      simp
  · intro h
    simp only [createPaloRule]
    rw [if_neg (by simp), if_pos h]
  · intro hn
    rw [createPaloRule_created_iff r rules zones raddresses raddressGroups
      rservices rserviceGroups rapplications rapplicationGroups rtags hn]
    simp only [RuleRefsValid, checkRefs_eq_none_iff]
  · intro f v h
    exact createPaloRule_invalidRef r rules zones raddresses raddressGroups
      rservices rserviceGroups rapplications rapplicationGroups rtags f v h

theorem C4_dependency_validator_witness :
    (("host1" : String) ∈ ({"host1", "host2"} : Finset String))
      ∧ createPaloAddress false
          { name := "host1", value := "10.1.1.1/32", type := "ip-netmask" }
          {"host1", "host2"} {"tagA"} = .alreadyExists :=
  ⟨by decide,
    (C4_dependency_validator
      { name := "host1", value := "10.1.1.1/32", type := "ip-netmask" }
      {"host1", "host2"} {"tagA"}
      { name := "r1", fromzone := ["any"], tozone := ["any"], source := ["any"],
        destination := ["any"], application := ["any"],
        service := ["application-default"], tag := none }
      ∅ ∅ ∅ ∅ ∅ ∅ ∅ ∅ ∅).1 (by decide)⟩

/-- Claim C3: every group-membership removal that leaves the member collection
empty inserts a kind-specific placeholder before the group is written back, so
no group is left with zero members: an emptied address group ends with the
single placeholder address (named placeholder, value 169.254.1.1), an emptied
service group with the single placeholder service (TCP destination port 0),
and an emptied application group with the single member ping. -/
theorem C3_empty_group_gets_placeholder
    (kind : GroupKind) (members : List String) (member : String)
    (h : members.erase member = []) :
    removePaloMember kind members member = [placeholderMember kind]
      ∧ (∀ (ms : List String) (m : String), removePaloMember kind ms m ≠ [])
      ∧ placeholderMember .addressGroup = placeholderAddress.name
      ∧ placeholderAddress.value = "169.254.1.1"
      ∧ placeholderAddress.type = "ip-netmask"
      ∧ placeholderMember .serviceGroup = placeholderService.name
      ∧ placeholderService.protocol = "tcp"
      ∧ placeholderService.destination_port = 0
      ∧ placeholderMember .applicationGroup = "ping" := by
  refine ⟨?_, ?_, rfl, rfl, rfl, rfl, rfl, rfl, rfl⟩
  · simp [removePaloMember, h]
  · intro ms m
    simp only [removePaloMember]
    by_cases hr : ms.erase m = [] <;> simp [hr]

theorem C3_empty_group_gets_placeholder_witness :
    (["h1"].erase "h1" = ([] : List String))
      ∧ removePaloMember .addressGroup ["h1"] "h1"
          = [placeholderMember .addressGroup] :=
  ⟨by decide, (C3_empty_group_gets_placeholder .addressGroup ["h1"] "h1" (by decide)).1⟩

/-- Claim C5: deleting an address, service or application object first
attempts a remove-from-group against every known group of the matching kind
and only then deletes the object itself; deleting a group object produces a
bare delete with no remove-from-group cascade. -/
theorem C5_delete_cascade
    (o : DeleteObject) (ag sg apg pre post : List String) :
    (o.type = "address" →
      updateObjectsDelete o ag sg apg pre post
        = (ag.map (fun g => .removeFromGroup .addressGroup g o.name))
            ++ [.deleteObject "address" o.name])
    ∧ (o.type = "service" →
      updateObjectsDelete o ag sg apg pre post
        = (sg.map (fun g => .removeFromGroup .serviceGroup g o.name))
            ++ [.deleteObject "service" o.name])
    ∧ (o.type = "application" →
      updateObjectsDelete o ag sg apg pre post
        = (apg.map (fun g => .removeFromGroup .applicationGroup g o.name))
            ++ [.deleteObject "application" o.name])
    ∧ (o.type = "address-group" →
      updateObjectsDelete o ag sg apg pre post = [.deleteObject "address-group" o.name])
    ∧ (o.type = "service-group" →
      updateObjectsDelete o ag sg apg pre post = [.deleteObject "service-group" o.name])
    ∧ (o.type = "application-group" →
      updateObjectsDelete o ag sg apg pre post
        = [.deleteObject "application-group" o.name]) := by
  refine ⟨?_, ?_, ?_, ?_, ?_, ?_⟩ <;>
    · intro h
      simp [updateObjectsDelete, h]

theorem C5_delete_cascade_witness :
    ((⟨"host1", "address"⟩ : DeleteObject).type = "address")
      ∧ updateObjectsDelete ⟨"host1", "address"⟩ ["grpA"] [] [] [] []
          = [.removeFromGroup .addressGroup "grpA" "host1",
             .deleteObject "address" "host1"] :=
  ⟨rfl, (C5_delete_cascade ⟨"host1", "address"⟩ ["grpA"] [] [] [] []).1 rfl⟩

/-- Claim C6: in every create pass, the available-name set used to validate
operations of kind K is the live set for K itself (batch-admitted names of
kind K are never merged in), while for every dependency kind processed
earlier in the fixed order the batch-admitted names are merged into the live
set. -/
theorem C6_create_pass_available_sets
    (live batch : NameSets) (k : ObjKind) :
    (createPassAvail live batch k).get k = live.get k
      ∧ (∀ d ∈ createDeps k,
          (createPassAvail live batch k).get d = live.get d ∪ batch.get d) := by
  cases k <;>
    refine ⟨rfl, ?_⟩ <;>
    · intro d hd
      fin_cases hd <;> rfl

theorem C6_create_pass_available_sets_witness :
    (ObjKind.address ∈ createDeps .addressGroup)
      ∧ (createPassAvail ⟨{"tLive"}, {"aLive"}, ∅, ∅, ∅, ∅, ∅, ∅, ∅⟩
            ⟨{"tNew"}, {"aNew"}, {"gNew"}, ∅, ∅, ∅, ∅, ∅, ∅⟩
            .addressGroup).get .address
          = ({"aLive"} : Finset String) ∪ {"aNew"} :=
  ⟨by decide,
    (C6_create_pass_available_sets
      ⟨{"tLive"}, {"aLive"}, ∅, ∅, ∅, ∅, ∅, ∅, ∅⟩
      ⟨{"tNew"}, {"aNew"}, {"gNew"}, ∅, ∅, ∅, ∅, ∅, ∅⟩
      .addressGroup).2 .address (by decide)⟩

/-- Claim C2: after all scopes are processed (a changeset file was supplied,
not in test mode, locks taken): with a non-empty failure set and commit
requested, no commit is attempted and the candidate configuration is
reverted, a successful revert releasing the locks; with an empty failure set
and commit requested, the commit runs, a successful commit releases the
locks, and a failed commit leaves the locks in place with a warning. -/
theorem C2_commit_or_revert
    (args : Args) (commitOk revertOk : Bool)
    (hf : args.filename = true) (ht : args.test = false)
    (hc : args.commit = true) (hl : args.no_locks = false) :
    (tidyUp args true commitOk revertOk
        = .failuresWarn :: wipeCandidateConfig revertOk
      ∧ TidyEffect.commitAttempt ∉ tidyUp args true commitOk revertOk
      ∧ TidyEffect.revertAttempt ∈ tidyUp args true commitOk revertOk
      ∧ (revertOk = true →
          TidyEffect.releaseLocksEffect ∈ tidyUp args true commitOk revertOk))
    ∧ (commitOk = true →
        tidyUp args false commitOk revertOk
          = [.commitAttempt, .commitSucceeded, .releaseLocksEffect])
    ∧ (commitOk = false →
        tidyUp args false commitOk revertOk
            = [.commitAttempt, .commitFailedWarn, .notReleasingWarn]
          ∧ TidyEffect.releaseLocksEffect ∉ tidyUp args false commitOk revertOk) := by
  refine ⟨⟨?_, ?_, ?_, ?_⟩, ?_, ?_⟩
  · simp [tidyUp, hf, ht, hc]
  · simp only [tidyUp, hf, ht, hc, Bool.not_false, Bool.and_self, if_true]
    cases revertOk <;> simp [wipeCandidateConfig]
  · simp only [tidyUp, hf, ht, hc, Bool.not_false, Bool.and_self, if_true]
    cases revertOk <;> simp [wipeCandidateConfig]
  · intro hr
    simp [tidyUp, hf, ht, hc, hr, wipeCandidateConfig]
  · intro hok
    simp [tidyUp, hf, ht, hc, hl, hok, commitPalo]
  · intro hok
    constructor <;> simp [tidyUp, hf, ht, hc, hl, hok, commitPalo]

theorem C2_commit_or_revert_witness :
    ((⟨true, false, true, false⟩ : Args).filename = true)
      ∧ ((⟨true, false, true, false⟩ : Args).test = false)
      ∧ ((⟨true, false, true, false⟩ : Args).commit = true)
      ∧ ((⟨true, false, true, false⟩ : Args).no_locks = false)
      ∧ tidyUp ⟨true, false, true, false⟩ false true true
          = [.commitAttempt, .commitSucceeded, .releaseLocksEffect] :=
  ⟨rfl, rfl, rfl, rfl,
    (C2_commit_or_revert ⟨true, false, true, false⟩ true true
      rfl rfl rfl rfl).2.1 rfl⟩

/-- Claim C8 (code bug): release_locks iterates python range(1, 10), making
at most 9 release attempts per lock type, not the 10 its own comment, log
messages and the claim state; a lock whose release would succeed on the
10th attempt is never released and the run exits fatally, as it does when
every attempt fails. -/
theorem C8_release_attempts_are_nine :
    releaseAttemptNumbers.length = 9
      ∧ (10 ∉ releaseAttemptNumbers)
      ∧ (releaseLocks (fun _ => false) (fun _ => false)).commitAttempts = 9
      ∧ (releaseLocks (fun _ => false) (fun _ => false)).configAttempts = 9
      ∧ (releaseLocks (fun _ => false) (fun _ => false)).fatalExit = true
      ∧ (releaseLocks (fun n => n == 10) (fun n => n == 10)).commitReleased = false
      ∧ (releaseLocks (fun n => n == 10) (fun n => n == 10)).fatalExit = true
      ∧ (releaseLocks (fun n => n == 9) (fun n => n == 9)).commitReleased = true
      ∧ (releaseLocks (fun n => n == 9) (fun n => n == 9)).fatalExit = false := by
  refine ⟨by decide, by decide, rfl, rfl, rfl, rfl, rfl, rfl, rfl⟩

/-- Claim C7 theorem (code bug): retrieval from the changeset index preserves
insertion order but does not collapse exact duplicates: unique_everseen
deduplicates by object identity, every row builds a fresh operation object,
so two operations with identical fields from different rows both survive in
file order. -/
theorem C7_duplicates_survive_retrieval :
    getDbeditList
        [⟨0, "palo", "DG1", "delete", "address", "host1"⟩,
         ⟨1, "palo", "DG1", "delete", "address", "host1"⟩]
        "palo" "DG1" "delete" "address"
      = [⟨0, "palo", "DG1", "delete", "address", "host1"⟩,
         ⟨1, "palo", "DG1", "delete", "address", "host1"⟩]
    ∧ DbeditOp.sameFields
        ⟨0, "palo", "DG1", "delete", "address", "host1"⟩
        ⟨1, "palo", "DG1", "delete", "address", "host1"⟩ = true
    ∧ (getDbeditList
        [⟨0, "palo", "DG1", "delete", "address", "host1"⟩,
         ⟨1, "palo", "DG1", "delete", "address", "host1"⟩]
        "palo" "DG1" "delete" "address").length = 2 :=
  ⟨rfl, rfl, rfl⟩

/-- A non-sticky row leaves the carried auto description unchanged. -/
theorem autoDescStep_not_sticky (date auto : String) (r : DescRow)
    (h : stickyRow r = false) : autoDescStep date auto r = auto := by
  simp only [stickyRow, Bool.or_eq_false_iff, beq_eq_false_iff_ne, ne_eq] at h
  obtain ⟨⟨h1, h2⟩, h3⟩ := h
  simp [autoDescStep, h1, h2, h3]

/-- A sticky row determines the carried auto description by itself. -/
theorem autoDescStep_sticky (date auto : String) (r : DescRow)
    (h : stickyRow r = true) :
    autoDescStep date auto r
      = (if r.opAction == "edit" then "EDITED by API: " ++ date
         else "MODIFIED by API: " ++ date) := by
  simp only [stickyRow, Bool.or_eq_true, beq_iff_eq] at h
  rcases h with (h | h) | h <;> simp [autoDescStep, h]

/-- Prepending a row to the suffix characterization folds its effect into the
starting suffix. -/
theorem stickyAutoFrom_cons (date auto : String) (r : DescRow)
    (rows : List DescRow) :
    stickyAutoFrom date auto (r :: rows)
      = stickyAutoFrom date (autoDescStep date auto r) rows := by
  by_cases hs : stickyRow r = true
  · simp only [stickyAutoFrom, List.filter_cons, hs, if_true]
    cases hfl : rows.filter stickyRow with
    | nil => simp [hfl, autoDescStep_sticky date auto r hs]
    | cons a l =>
      simp only [hfl, List.getLast?_cons_cons]
      cases hg : (a :: l).getLast? with
      | none => simp at hg
      | some x => rfl
  · have hs' : stickyRow r = false := by simpa using hs
    simp [stickyAutoFrom, List.filter_cons, hs',
      autoDescStep_not_sticky date auto r hs']

/-- The description emitted for row i carries the sticky suffix of the first
i+1 rows. -/
theorem processDescAux_get (date : String) (rows : List DescRow) :
    ∀ (auto : String) (i : Nat) (h : i < rows.length),
      (processDescAux date auto rows)[i]?
        = some (rowDescription rows[i].description
            (stickyAutoFrom date auto (rows.take (i + 1)))) := by
  induction rows with
  | nil =>
    intro auto i h
    simp at h
  | cons r rs ih =>
    intro auto i h
    cases i with
    | zero =>
      simp only [processDescAux, List.getElem?_cons_zero,
        List.getElem_cons_zero, List.take_succ_cons, List.take_zero,
        stickyAutoFrom_cons]
      rfl
    | succ j =>
      have hj : j < rs.length := by simpa using h
      simp only [processDescAux, List.getElem?_cons_succ,
        List.getElem_cons_succ, List.take_succ_cons, stickyAutoFrom_cons]
      exact ih (autoDescStep date auto r) j hj

/-- Claim C9 counterexample at a concrete input: a create row directly after
an edit row receives the EDITED suffix, while the same create row on its own
receives the CREATED suffix — the suffix is not independent of earlier
rows. -/
theorem C9_counterexample :
    processDescriptions "2019-03-29" [⟨"edit", ""⟩, ⟨"create", ""⟩]
      = ["EDITED by API: 2019-03-29", "EDITED by API: 2019-03-29"]
    ∧ processDescriptions "2019-03-29" [⟨"create", ""⟩]
      = ["CREATED by API: 2019-03-29"] :=
  ⟨rfl, rfl⟩

/-- Claim C9 as amended: the suffix appended to a row reflects the most
recent row at or before it whose action is edit (EDITED) or
addtogroup/removefromgroup (MODIFIED); only when no such row has occurred
does the initial CREATED suffix apply, so a create row inherits whatever
suffix earlier rows left behind. -/
theorem C9_description_suffix_sticky (date : String) (rows : List DescRow)
    (i : Nat) (h : i < rows.length) :
    (processDescriptions date rows)[i]?
      = some (rowDescription rows[i].description
          (stickyAutoFrom date ("CREATED by API: " ++ date)
            (rows.take (i + 1)))) :=
  processDescAux_get date rows ("CREATED by API: " ++ date) i h

theorem C9_description_suffix_sticky_witness :
    (1 < ([⟨"edit", ""⟩, ⟨"create", ""⟩] : List DescRow).length)
    ∧ (processDescriptions "2019-03-29" [⟨"edit", ""⟩, ⟨"create", ""⟩])[1]?
        = some "EDITED by API: 2019-03-29" :=
  ⟨by decide,
    (C9_description_suffix_sticky "2019-03-29" [⟨"edit", ""⟩, ⟨"create", ""⟩] 1
      (by decide)).trans rfl⟩

/-- Claim C10: with checks enabled a NAT row is admitted only when its tozone
list is present and holds exactly one zone; an absent tozone cell or a list
of two or more zones fails the syntax validator and produces no change
operation. -/
theorem C10_nat_tozone_single (name description cell : String)
    (tz : Option (List String)) :
    (checkDbeditSyntaxPaloNatRule false name description tz = true →
      ∃ l, tz = some l ∧ l.length = 1)
    ∧ (tz = none →
        checkDbeditSyntaxPaloNatRule false name description tz = false)
    ∧ (∀ l, tz = some l → 2 ≤ l.length →
        checkDbeditSyntaxPaloNatRule false name description tz = false)
    ∧ (cell = "" → natRowProducesOp false name description cell = false)
    ∧ (∀ l, natRowTozone cell = some l → 2 ≤ l.length →
        natRowProducesOp false name description cell = false) := by
  refine ⟨?_, ?_, ?_, ?_, ?_⟩
  · intro h
    cases tz with
    | none => simp [checkDbeditSyntaxPaloNatRule, ite_self] at h
    | some l =>
      refine ⟨l, rfl, ?_⟩
      simp only [checkDbeditSyntaxPaloNatRule] at h
      split_ifs at h <;> simp_all
  · intro h
    subst h
    simp [checkDbeditSyntaxPaloNatRule, ite_self]
  · intro l hl hlen
    subst hl
    simp only [checkDbeditSyntaxPaloNatRule]
    split_ifs <;> simp_all
    all_goals omega
  · intro h
    subst h
    simp [natRowProducesOp, natRowTozone, checkDbeditSyntaxPaloNatRule, ite_self]
  · intro l hl hlen
    simp only [natRowProducesOp, hl, checkDbeditSyntaxPaloNatRule]
    split_ifs <;> simp_all
    all_goals omega

theorem C10_nat_tozone_single_witness :
    (natRowTozone "zoneA,zoneB" = some ["zoneA", "zoneB"])
    ∧ (2 ≤ (["zoneA", "zoneB"] : List String).length)
    ∧ natRowProducesOp false "nat1" "d" "zoneA,zoneB" = false :=
  ⟨by decide, by decide,
    (C10_nat_tozone_single "nat1" "d" "zoneA,zoneB" none).2.2.2.2
      ["zoneA", "zoneB"] (by decide) (by decide)⟩

/-- Claim C1 counterexample at a concrete input: a service row whose
destination port is the non-integer text abc raises ValueError inside the
syntax validator; the exception is caught only by the file-level handler,
which exits the process, so the whole parse aborts and the following valid
tag row is never admitted — the claimed skip-and-continue does not happen. -/
theorem C1_counterexample :
    processRows false
        [.serviceRow "svc1" "tcp" "" "abc" "d" "",
         .tagRow "tag1" "d" ""]
      = .error "ValueError"
    ∧ processRows false [.tagRow "tag1" "d" ""]
      = .ok [.tagOp "tag1"] :=
  ⟨rfl, rfl⟩

/-- The service syntax validator raises ValueError on a dash-free
non-integer destination port. -/
theorem checkService_bad_destination (name proto dp desc : String)
    (tags : Option (List String))
    (h1 : dp.data.contains (Char.ofNat 45) = false)
    (h2 : pyIntVal dp = none) :
    checkDbeditSyntaxPaloService false name proto none (some dp) desc tags
      = .error "ValueError" := by
  have h1m : Char.ofNat 45 ∉ dp.data := by simpa using h1
  simp [checkDbeditSyntaxPaloService, h1m, pyIntE, h2, Bind.bind, Except.bind,
    Pure.pure, Except.pure]

/-- Claim C1 as amended: a malformed IP/CIDR literal makes the row-level
syntax validator return False, so the row yields no change operation and
parsing continues with the remaining rows; but a numeric field that is not
an integer literal (here a service destination port) raises ValueError,
which only the file-level handler catches, aborting the whole batch via
sys.exit. -/
theorem C1_malformed_field_handling (rest : List CsvRow)
    (aname asub aval aip acidr adesc atag : String)
    (sname sproto sdp sdesc stag : String)
    (hbadAddr : checkDbeditSyntaxPaloAddress false aname adesc
        (if atag ≠ "" then makeListFromStr atag else none)
        asub aval aip acidr = false)
    (hdp1 : sdp.data.contains (Char.ofNat 45) = false)
    (hdp2 : pyIntVal sdp = none) :
    processRows false
        (.addressRow aname asub aval aip acidr adesc atag :: rest)
      = processRows false rest
    ∧ processRow false (.addressRow aname asub aval aip acidr adesc atag)
        = .ok none
    ∧ (∀ (name desc subtype value ip cidr : String)
          (tag : Option (List String)), cidr ≠ "" → checkCidr cidr = false →
        checkDbeditSyntaxPaloAddress false name desc tag subtype value ip cidr
          = false)
    ∧ processRows false
        (.serviceRow sname sproto "" sdp sdesc stag :: rest)
      = .error "ValueError" := by
  refine ⟨?_, ?_, ?_, ?_⟩
  · simp only [processRows, processRow]
    rw [hbadAddr]
    simp
  · simp only [processRow]
    rw [hbadAddr]
    simp
  · intro name desc subtype value ip cidr tag hne hc
    simp [checkDbeditSyntaxPaloAddress, hc, hne]
  · have hc := checkService_bad_destination sname sproto sdp sdesc
      (if stag ≠ "" then makeListFromStr stag else none) hdp1 hdp2
    simp only [processRows, processRow, reduceIte]
    rw [hc]

theorem C1_malformed_field_handling_witness :
    (checkDbeditSyntaxPaloAddress false "host1" "d"
        (if "" ≠ "" then makeListFromStr "" else none)
        "ip-netmask" "" "" "10.1.1.300" = false)
    ∧ (("abc" : String).data.contains (Char.ofNat 45) = false)
    ∧ (pyIntVal "abc" = none)
    ∧ processRows false
        [.serviceRow "svc1" "tcp" "" "abc" "d" ""]
      = .error "ValueError" :=
  ⟨by decide, by decide, by decide,
    (C1_malformed_field_handling []
      "host1" "ip-netmask" "" "" "10.1.1.300" "d" ""
      "svc1" "tcp" "abc" "d" ""
      (by decide) (by decide) (by decide)).2.2.2⟩

end Panmanager
